import Mathlib

/-!
Shallow embedding of `pybot/endpoints/slack/commands.py`: the slash-command
handlers of the pybot Slack bot, their error-wrapping decorator
`catch_slack_error`, and the command registry `create_endpoints`.

Each Python handler `async def h(command, app)` performs a sequence of
outbound Slack API queries (`slack.query(method, payload)`) and may raise.
We embed a handler as a pure function from the parsed command payload and an
environment `Env` (the external world: the moderation-service HTTP response,
the Yelp HTTP response, the chat API's returned timestamp, the random stream,
and the outputs of helper modules that are not part of this file) to the list
of Slack API calls it issues together with an optional Python exception that
escapes it (`none` = the coroutine returns normally).

Helper functions imported by `commands.py` from modules outside the given
source (`get_slash_here_messages`, `get_slash_repeat_messages`,
`LunchCommand`, `ticket_dialog`, `not_claimed_attachment`, the configuration
constants) are modelled from the spec where their behaviour matters and kept
abstract (fields of `Env`) where it does not.
-/

/-- Slack API methods used by `commands.py` (`slack.methods` constants). -/
inductive Method where
  | chatPostMessage
  | chatPostEphemeral
  | usersInfo
  | dialogOpen
deriving DecidableEq

/-- The payload dict passed to `slack.api.query`.  Only the keys that
`commands.py` ever sets are modelled; a key the handler does not set is
`none` (absent). `attachmentsCount` models the length of the `attachments`
list; `dialog` models the dialog payload as the (email, text) pair that
`ticket_dialog` embeds into it. -/
structure Payload where
  channel : Option String := none
  user : Option String := none
  text : Option String := none
  threadTs : Option String := none
  asUser : Option Bool := none
  attachmentsCount : Nat := 0
  triggerId : Option String := none
  dialog : Option (String × String) := none
deriving DecidableEq

/-- One outbound Slack API query: `await slack.query(method, payload)`. -/
structure SlackCall where
  method : Method
  payload : Payload
deriving DecidableEq

/-- Python exceptions relevant to `commands.py`: `SlackAPIError` raised by
the slack client, and `aiohttp`'s `ClientResponseError` raised by
`r.raise_for_status()`. -/
inductive PyError where
  | slackAPIError
  | clientResponseError
deriving DecidableEq

/-- The inbound slash-command payload (`command["..."]` fields). -/
structure Command where
  channel_id : String
  user_id : String
  user_name : String
  text : String
  trigger_id : String
  command : String
deriving DecidableEq

/-- A moderation-service JSON list entry (a JSON object, modelled as
key/value pairs); `slash_here` only ever takes the length of the list. -/
abbrev ModEntry := List (String × String)

/-- The external world of one request, as seen through `app` and the
network: HTTP responses of the auxiliary services, the chat API's returned
timestamp, the random stream, configuration constants, and the results of
the helper modules imported by `commands.py` whose code is outside this
file. -/
structure Env where
  /-- Status of the pyback moderation-service response (`r.status`). -/
  modStatus : Nat
  /-- JSON body of the moderation-service response (`await r.json()`). -/
  modBody : List ModEntry
  /-- Modelled from the spec: missing helper
  `pybot.endpoints.slack.utils.command_utils.get_slash_here_messages`,
  which from `(slack_id, channel_id, text)` "composes a primary
  announcement message ... and a secondary message listing mentioned
  members"; it returns the pair `(message, member_list)` and posts
  nothing itself. -/
  get_slash_here_messages : String → String → String → String × String
  /-- The `ts` field of the chat API's response to the first
  `CHAT_POST_MESSAGE` query of the request (`response["ts"]`). -/
  postMessageTs : String
  /-- Status of the Yelp restaurant-search response (`r.status`). -/
  lunchStatus : Nat
  /-- The restaurants in the Yelp response body, each rendered as the
  details string the lunch message would show. -/
  lunchResults : List String
  /-- Raw randomness consumed by the uniform restaurant selection. -/
  lunchRand : Nat
  /-- Raw random stream consumed by the dice rolls: `rollRng i` feeds the
  `i`-th `random.randint` call. -/
  rollRng : Nat → Nat
  /-- The email in the `USERS_INFO` response for a user id
  (`user_info["user"]["profile"]["email"]`). -/
  users_info_email : String → String
  /-- Modelled from the spec: missing helper
  `pybot.endpoints.slack.utils.command_utils.get_slash_repeat_messages`,
  which from `(slack_id, channel_id, text)` "returns a send-method
  selector and a message payload". -/
  get_slash_repeat_messages : String → String → String → Method × Payload
  /-- Configuration constant `MODERATOR_CHANNEL` (imported from
  `pybot.endpoints.slack.utils`). -/
  MODERATOR_CHANNEL : String

/-- A handler, after parameter parsing: the Slack API calls it issues and
the exception (if any) escaping it. -/
abbrev Handler := Command → Env → List SlackCall × Option PyError

/-! ### `catch_slack_error` -/

/-- The text of the fallback ephemeral message sent by `catch_slack_error`:
`f"Could not post result of `{slash_command}` to channel <#{channel_id}>"`. -/
def slackErrorText (slash_command channel_id : String) : String :=
  "Could not post result of `" ++ slash_command ++ "` to channel <#"
    ++ channel_id ++ ">"

/-- Decorator `catch_slack_error`: runs the wrapped handler; if (and only
if) a `SlackAPIError` escapes it, posts one `CHAT_POST_EPHEMERAL` fallback
to the invoking user (`user=slack_id, channel=slack_id, as_user=True`) and
swallows the exception.  Calls already issued by the wrapped handler before
the exception remain issued. -/
def catch_slack_error (func : Handler) : Handler := fun command app =>
  match func command app with
  | (calls, some PyError.slackAPIError) =>
      (calls ++ [⟨Method.chatPostEphemeral,
        { user := some command.user_id
          channel := some command.user_id
          asUser := some true
          text := some (slackErrorText command.command command.channel_id) }⟩],
       none)
  | r => r

/-! ### A model of Python `int(str)` (base 10)

`int()` strips surrounding whitespace, accepts an optional single sign, and
then base-10 digits in which single underscores may appear between digits.
(The CPython routine also accepts non-ASCII decimal digits and Unicode
whitespace; the commands below only ever meet ASCII text.) -/

/-- ASCII whitespace stripped by Python's `str.strip()` / `int()`. -/
def pyWhitespace (c : Char) : Bool :=
  c == ' ' || c == '\t' || c == '\n' || c == '\r' || c == '\x0b' || c == '\x0c'

/-- Python `str.strip()` (ASCII whitespace). -/
def pyStrip (s : String) : String :=
  ⟨((s.data.dropWhile pyWhitespace).reverse.dropWhile pyWhitespace).reverse⟩

/-- Digit tail of a Python int literal: digits, with single underscores
allowed only between digits. `acc` is the value of the digits read so far. -/
def pyDigitsAux (acc : Nat) : List Char → Option Nat
  | [] => some acc
  | c :: cs =>
    if c.isDigit then pyDigitsAux (acc * 10 + (c.toNat - 48)) cs
    else if c == '_' then
      match cs with
      | [] => none
      | d :: cs2 =>
          if d.isDigit then pyDigitsAux (acc * 10 + (d.toNat - 48)) cs2
          else none
    else none

/-- The digit part of a Python int literal: nonempty, starts with a digit. -/
def pyDigits : List Char → Option Nat
  | [] => none
  | c :: cs => if c.isDigit then pyDigitsAux (c.toNat - 48) cs else none

/-- Python `int(s)` for base 10: `some n` on success, `none` when a
`ValueError` is raised. -/
def pyInt (s : String) : Option Int :=
  match (pyStrip s).data with
  | '+' :: cs => (pyDigits cs).map Int.ofNat
  | '-' :: cs => (pyDigits cs).map (fun n => -(Int.ofNat n))
  | cs => (pyDigits cs).map Int.ofNat

/-! ### `/roll` -/

/-- Python `str.split(sep)` for a one-character separator, on the character
list: every occurrence of `sep` cuts, empty pieces are kept, and the empty
string yields one empty piece. -/
def splitOnChar (sep : Char) : List Char → List (List Char)
  | [] => [[]]
  | c :: cs =>
    match splitOnChar sep cs with
    | [] => if c == sep then [[], [c]] else [[c]]
    | h :: t => if c == sep then [] :: h :: t else (c :: h) :: t

/-- Python `str.split(sep)` for a one-character separator. -/
def pySplit (s : String) (sep : Char) : List String :=
  (splitOnChar sep s.data).map String.mk

/-- Python `str.lower()` (ASCII letters; the roll texts are ASCII). -/
def pyLower (s : String) : String := ⟨s.data.map Char.toLower⟩

/-- The `try:` block of `slash_roll`: lower-case the text, split on `"d"`
(the tuple unpack raises `ValueError` unless there are exactly two parts),
convert both parts with `int()`, and range-check `1 <= numdice <= 10`,
`1 <= typedice <= 20`. `none` means the block raised `ValueError`. -/
def parseRoll (text : String) : Option (Nat × Nat) :=
  match pySplit (pyLower text) 'd' with
  | [a, b] =>
    match pyInt a, pyInt b with
    | some numdice, some typedice =>
        if numdice ≤ 0 ∨ numdice > 10 then none
        else if typedice ≤ 0 ∨ typedice > 20 then none
        else some (numdice.toNat, typedice.toNat)
    | _, _ => none
  | _ => none

/-- `random.randint(a, b)`: uniform on the inclusive range `[a, b]`; `r` is
the raw randomness of this draw. -/
def randint (a b r : Nat) : Nat := a + r % (b + 1 - a)

/-- The dice loop of `slash_roll`:
`for _ in range(0, numdice): dice.append(random.randint(1, typedice + 1))`.
Note the source's `typedice + 1` upper bound. -/
def rollDice (numdice typedice : Nat) (rng : Nat → Nat) : List Nat :=
  (List.range numdice).map (fun i => randint 1 (typedice + 1) (rng i))

/-- The usage-help text of `slash_roll` (two adjacent Python string
literals, concatenated). -/
def rollHelp : String :=
  "Sorry, I didn\x27t understand your input. "
    ++ "Should be XDYY where X is the number of dice, and YY is the number of sides"

/-- The channel message of a successful roll:
`f"<@{slack_id}> Rolled {numdice} D{typedice}: {dice}"`. -/
def rollMessage (slack_id : String) (numdice typedice : Nat)
    (dice : List Nat) : String :=
  "<@" ++ slack_id ++ "> Rolled " ++ toString numdice ++ " D"
    ++ toString typedice ++ ": " ++ toString dice

/-- Body of `slash_roll` (before decoration): on a parse failure, post the
ephemeral usage help to the invoking user and return; on success, roll the
dice and post the roll message to the channel. -/
def slash_roll_core : Handler := fun command env =>
  match parseRoll command.text with
  | none =>
      ([⟨Method.chatPostEphemeral,
        { user := some command.user_id
          channel := some command.channel_id
          text := some rollHelp }⟩], none)
  | some (numdice, typedice) =>
      let dice := rollDice numdice typedice env.rollRng
      ([⟨Method.chatPostMessage,
        { channel := some command.channel_id
          text := some (rollMessage command.user_id numdice typedice dice) }⟩],
       none)

/-- `slash_roll` as registered: the body under `@catch_slack_error`. -/
def slash_roll : Handler := catch_slack_error slash_roll_core

/-! ### `/here` -/

/-- Body of `slash_here` (before decoration): query the moderation service;
on status `>= 400` or an empty JSON list, return with no chat action;
otherwise compose the two messages and post them, the second threaded under
the first post's returned timestamp. -/
def slash_here_core : Handler := fun command env =>
  if 400 ≤ env.modStatus then ([], none)
  else if env.modBody.length = 0 then ([], none)
  else
    let p := env.get_slash_here_messages command.user_id command.channel_id
      command.text
    ([⟨Method.chatPostMessage,
        { channel := some command.channel_id, text := some p.1 }⟩,
      ⟨Method.chatPostMessage,
        { channel := some command.channel_id, text := some p.2
          threadTs := some env.postMessageTs }⟩], none)

/-- `slash_here` as registered: the body under `@catch_slack_error`. -/
def slash_here : Handler := catch_slack_error slash_here_core

/-! ### `/lunch` -/

/-- Modelled from the spec: missing helper
`pybot.endpoints.slack.utils.slash_lunch.LunchCommand.select_random_lunch`,
which "selects one restaurant uniformly at random from the result set and
formats an ephemeral message to the invoking user with the selection's
details", and "must tolerate an empty result set (defined error ... no
crash, no message)". -/
def select_random_lunch (user channel : String) (results : List String)
    (r : Nat) : Option Payload :=
  match results with
  | [] => none
  | _ :: _ =>
      some { user := some user
             channel := some channel
             text := some (results.getD (r % results.length) "") }

/-- Body of `slash_lunch` (before decoration): issue the Yelp request;
`r.raise_for_status()` raises `ClientResponseError` on a status `>= 400`
(which `catch_slack_error` does not catch); on success post the selection
as one ephemeral message. -/
def slash_lunch_core : Handler := fun command env =>
  if 400 ≤ env.lunchStatus then ([], some PyError.clientResponseError)
  else
    match select_random_lunch command.user_id command.channel_id
        env.lunchResults env.lunchRand with
    | some p => ([⟨Method.chatPostEphemeral, p⟩], none)
    | none => ([], none)

/-- `slash_lunch` as registered: the body under `@catch_slack_error`. -/
def slash_lunch : Handler := catch_slack_error slash_lunch_core

/-! ### `/repeat`, `/report`, `/ticket` -/

/-- Body of `slash_repeat` (before decoration): forward the
`(method, payload)` pair returned by `get_slash_repeat_messages`. -/
def slash_repeat_core : Handler := fun command env =>
  let p := env.get_slash_repeat_messages command.user_id command.channel_id
    command.text
  ([⟨p.1, p.2⟩], none)

/-- `slash_repeat` as registered: the body under `@catch_slack_error`. -/
def slash_repeat : Handler := catch_slack_error slash_repeat_core

/-- Body of `slash_report` (before decoration): post
`f"<@{slack_id}> sent report: {text}"` to the moderator channel with the
claim-control attachment (`not_claimed_attachment()`, modelled as one
attachment). -/
def slash_report_core : Handler := fun command env =>
  ([⟨Method.chatPostMessage,
    { text := some ("<@" ++ command.user_id ++ "> sent report: "
        ++ command.text)
      channel := some env.MODERATOR_CHANNEL
      attachmentsCount := 1 }⟩], none)

/-- `slash_report` as registered: the body under `@catch_slack_error`. -/
def slash_report : Handler := catch_slack_error slash_report_core

/-- Modelled from the spec: missing helper
`pybot.endpoints.slack.message_templates.commands.ticket_dialog`, which
"builds a dialog payload containing the email and the free-text
argument". -/
def ticket_dialog (email text : String) : String × String := (email, text)

/-- Body of `slash_ticket` (before decoration): `USERS_INFO` query for the
invoking user's email, then `DIALOG_OPEN` with the ticket dialog addressed
to the trigger id. -/
def slash_ticket_core : Handler := fun command env =>
  ([⟨Method.usersInfo, { user := some command.user_id }⟩,
    ⟨Method.dialogOpen,
      { triggerId := some command.trigger_id
        dialog := some (ticket_dialog (env.users_info_email command.user_id)
          command.text) }⟩], none)

/-- `slash_ticket` as registered: the body under `@catch_slack_error`. -/
def slash_ticket : Handler := catch_slack_error slash_ticket_core

/-! ### The command registry -/

/-- `create_endpoints`: the command registry, pairing each slash-command
name with the handler registered for it (`plugin.on_command(...)`). -/
def create_endpoints : List (String × Handler) :=
  [("/here", slash_here),
   ("/lunch", slash_lunch),
   ("/repeat", slash_repeat),
   ("/report", slash_report),
   ("/ticket", slash_ticket),
   ("/roll", slash_roll)]

/-! ### Concrete test fixtures -/

/-- A concrete inbound command payload. -/
def cmd0 : Command :=
  { channel_id := "C024BE91L"
    user_id := "U2147483697"
    user_name := "alice"
    text := "2d6"
    trigger_id := "13345224609.738474920.8088930838d88f008e0"
    command := "/roll" }

/-- A concrete environment. -/
def env0 : Env :=
  { modStatus := 200
    modBody := [[("id", "1")]]
    get_slash_here_messages := fun _ _ _ => ("here-message", "member-list")
    postMessageTs := "1503435956.000247"
    lunchStatus := 200
    lunchResults := ["Taco Stand (0.3 mi)"]
    lunchRand := 0
    rollRng := fun _ => 0
    users_info_email := fun _ => "alice\x40example.com"
    get_slash_repeat_messages := fun _ _ _ => (Method.chatPostMessage, {})
    MODERATOR_CHANNEL := "G1UQZUZMS" }

/-! ### Helper lemmas about the decorator -/

/-- If the wrapped handler returns normally, the decorator is transparent. -/
theorem catch_slack_error_ok (func : Handler) (command : Command) (env : Env)
    (calls : List SlackCall) (h : func command env = (calls, none)) :
    catch_slack_error func command env = (calls, none) := by
  unfold catch_slack_error
  rw [h]

/-- An exception other than `SlackAPIError` passes through the decorator. -/
theorem catch_slack_error_pass (func : Handler) (command : Command) (env : Env)
    (calls : List SlackCall) (e : PyError) (he : e ≠ PyError.slackAPIError)
    (h : func command env = (calls, some e)) :
    catch_slack_error func command env = (calls, some e) := by
  unfold catch_slack_error
  rw [h]
  cases e with
  | slackAPIError => exact absurd rfl he
  | clientResponseError => rfl

/-- The fallback text exhibits the failed channel reference `<#channel>`. -/
theorem slackErrorText_contains_channel (c ch : String) :
    ∃ pre : String, slackErrorText c ch = pre ++ ("<#" ++ ch ++ ">") := by
  refine ⟨"Could not post result of `" ++ c ++ "` to channel ", ?_⟩
  unfold slackErrorText
  have hsplit : ("` to channel <#" : String) = "` to channel " ++ "<#" := rfl
  rw [hsplit]
  simp only [String.append_assoc]

/-- A successful `parseRoll` yields `1 <= numdice <= 10` and
`1 <= typedice <= 20`. -/
theorem parseRoll_bounds {text : String} {n s : Nat}
    (h : parseRoll text = some (n, s)) :
    1 ≤ n ∧ n ≤ 10 ∧ 1 ≤ s ∧ s ≤ 20 := by
  unfold parseRoll at h
  split at h
  · split at h
    · split at h
      · exact absurd h (by simp)
      · split at h
        · exact absurd h (by simp)
        · rename_i nd td h1 h2
          rw [Option.some.injEq, Prod.mk.injEq] at h
          obtain ⟨hn, hs⟩ := h
          push_neg at h1 h2
          omega
    · exact absurd h (by simp)
  · exact absurd h (by simp)

/-! ### Claim theorems -/

/-- Claim C1: for every `/roll` invocation whose text parses as `NdS` with
`1 <= N <= 10` and `1 <= S <= 20`, `slash_roll` issues exactly one
non-ephemeral channel message (`CHAT_POST_MESSAGE` to the invoking
channel), whose text mentions the invoking user (`<@user>`), states `N`
and `S` (`Rolled N DS:`), and embeds the dice list, which has exactly `N`
integer values; no exception escapes. -/
theorem slash_roll_wellformed (command : Command) (env : Env) (n s : Nat)
    (h : parseRoll command.text = some (n, s)) :
    slash_roll command env =
      ([⟨Method.chatPostMessage,
        { channel := some command.channel_id
          text := some ("<@" ++ command.user_id ++ "> Rolled " ++ toString n
            ++ " D" ++ toString s ++ ": "
            ++ toString (rollDice n s env.rollRng)) }⟩], none)
    ∧ (rollDice n s env.rollRng).length = n
    ∧ 1 ≤ n ∧ n ≤ 10 ∧ 1 ≤ s ∧ s ≤ 20 := by
  obtain ⟨h1, h2, h3, h4⟩ := parseRoll_bounds h
  refine ⟨?_, ?_, h1, h2, h3, h4⟩
  · apply catch_slack_error_ok
    unfold slash_roll_core
    rw [h]
    rfl
  · simp [rollDice]

/-- Witness for C1 at the concrete invocation `/roll 2d6`. -/
theorem slash_roll_wellformed_witness :
    slash_roll cmd0 env0 =
      ([⟨Method.chatPostMessage,
        { channel := some cmd0.channel_id
          text := some ("<@" ++ cmd0.user_id ++ "> Rolled " ++ toString 2
            ++ " D" ++ toString 6 ++ ": "
            ++ toString (rollDice 2 6 env0.rollRng)) }⟩], none)
    ∧ (rollDice 2 6 env0.rollRng).length = 2
    ∧ 1 ≤ 2 ∧ 2 ≤ 10 ∧ 1 ≤ 6 ∧ 6 ≤ 20 :=
  slash_roll_wellformed cmd0 env0 2 6 rfl

/-- Claim C2 (code bug witness): the dice loop samples
`random.randint(1, typedice + 1)`, so a roll of a 1-sided die can produce
the value 2, outside `[1, sides]`: with text `1d1` (which parses as
`N = 1`, `S = 1`) and raw randomness 1, the posted roll message carries the
dice list `[2]`, and `2` is not `<= 1`. -/
theorem slash_roll_exceeds_sides :
    parseRoll "1d1" = some (1, 1)
    ∧ rollDice 1 1 (fun _ => 1) = [2]
    ∧ slash_roll { cmd0 with text := "1d1" }
        { env0 with rollRng := fun _ => 1 } =
      ([⟨Method.chatPostMessage,
        { channel := some cmd0.channel_id
          text := some "<@U2147483697> Rolled 1 D1: [2]" }⟩], none)
    ∧ ¬ 2 ≤ 1 :=
  ⟨rfl, rfl, rfl, by decide⟩

/-- Claim C3: for every `/roll` invocation whose text the `try:` block
rejects (`parseRoll` fails), `slash_roll` sends exactly one ephemeral
usage-help message to the invoking user, sends no channel message, and
returns without raising. -/
theorem slash_roll_malformed (command : Command) (env : Env)
    (h : parseRoll command.text = none) :
    slash_roll command env =
      ([⟨Method.chatPostEphemeral,
        { user := some command.user_id
          channel := some command.channel_id
          text := some rollHelp }⟩], none) := by
  apply catch_slack_error_ok
  unfold slash_roll_core
  rw [h]

/-- Witness for C3: all six malformed example inputs fail the parse, and
the handler run on `abc` posts exactly the ephemeral help. -/
theorem slash_roll_malformed_witness :
    parseRoll "0d5" = none ∧ parseRoll "11d5" = none
    ∧ parseRoll "3d21" = none ∧ parseRoll "abc" = none
    ∧ parseRoll "3x5" = none ∧ parseRoll "" = none
    ∧ slash_roll { cmd0 with text := "abc" } env0 =
      ([⟨Method.chatPostEphemeral,
        { user := some cmd0.user_id
          channel := some cmd0.channel_id
          text := some rollHelp }⟩], none) :=
  ⟨rfl, rfl, rfl, rfl, rfl, rfl,
    slash_roll_malformed { cmd0 with text := "abc" } env0 rfl⟩

/-- Claim C9 (implicit): the parse also accepts texts whose two substrings
around the single `d` carry surrounding whitespace, because `int()`
tolerates it; `2 d 6` is treated as a well-formed roll and posts the roll
message, not the usage help. -/
theorem slash_roll_whitespace :
    pyInt "2 " = some 2 ∧ pyInt " 6" = some 6
    ∧ parseRoll "2 d 6" = some (2, 6)
    ∧ slash_roll { cmd0 with text := "2 d 6" } env0 =
      ([⟨Method.chatPostMessage,
        { channel := some cmd0.channel_id
          text := some "<@U2147483697> Rolled 2 D6: [1, 1]" }⟩], none) :=
  ⟨rfl, rfl, rfl, rfl⟩

/-- Claim C4: whenever the handler wrapped by `catch_slack_error` raises
`SlackAPIError`, the wrapper sends exactly one ephemeral fallback message
whose text names the original slash command and the target channel, and no
exception escapes the wrapper. -/
theorem catch_slack_error_fallback (func : Handler) (command : Command)
    (env : Env) (calls : List SlackCall)
    (h : func command env = (calls, some PyError.slackAPIError)) :
    catch_slack_error func command env =
      (calls ++ [⟨Method.chatPostEphemeral,
        { user := some command.user_id
          channel := some command.user_id
          asUser := some true
          text := some ("Could not post result of `" ++ command.command
            ++ "` to channel <#" ++ command.channel_id ++ ">") }⟩], none) := by
  unfold catch_slack_error
  rw [h]
  rfl

/-- A handler that raises `SlackAPIError` immediately. -/
def failingHandler : Handler := fun _ _ => ([], some PyError.slackAPIError)

/-- Witness for C4 on a concrete failing handler and command. -/
theorem catch_slack_error_fallback_witness :
    catch_slack_error failingHandler cmd0 env0 =
      ([] ++ [⟨Method.chatPostEphemeral,
        { user := some cmd0.user_id
          channel := some cmd0.user_id
          asUser := some true
          text := some ("Could not post result of `" ++ cmd0.command
            ++ "` to channel <#" ++ cmd0.channel_id ++ ">") }⟩], none) :=
  catch_slack_error_fallback failingHandler cmd0 env0 [] rfl

/-- Claim C10 (implicit): the fallback ephemeral message is addressed with
the invoking user's id as both the `channel` and `user` payload fields —
not to the channel where the original post failed — and the failed channel
appears only inside the message text, as `<#channel>`. -/
theorem catch_slack_error_fallback_target (func : Handler)
    (command : Command) (env : Env) (calls : List SlackCall)
    (h : func command env = (calls, some PyError.slackAPIError)) :
    ∃ fb : SlackCall,
      catch_slack_error func command env = (calls ++ [fb], none)
      ∧ fb.method = Method.chatPostEphemeral
      ∧ fb.payload.user = some command.user_id
      ∧ fb.payload.channel = some command.user_id
      ∧ (command.channel_id ≠ command.user_id →
          fb.payload.channel ≠ some command.channel_id)
      ∧ ∃ pre : String,
          fb.payload.text = some (pre ++ ("<#" ++ command.channel_id ++ ">")) := by
  refine ⟨⟨Method.chatPostEphemeral,
    { user := some command.user_id
      channel := some command.user_id
      asUser := some true
      text := some (slackErrorText command.command command.channel_id) }⟩,
    ?_, rfl, rfl, rfl, ?_, ?_⟩
  · unfold catch_slack_error
    rw [h]
  · intro hne hc
    exact hne (Option.some.inj hc).symm
  · obtain ⟨pre, hp⟩ := slackErrorText_contains_channel command.command
      command.channel_id
    exact ⟨pre, by rw [← hp]⟩

/-- Witness for C10 on a concrete failing handler and command. -/
theorem catch_slack_error_fallback_target_witness :
    ∃ fb : SlackCall,
      catch_slack_error failingHandler cmd0 env0 = ([] ++ [fb], none)
      ∧ fb.method = Method.chatPostEphemeral
      ∧ fb.payload.user = some cmd0.user_id
      ∧ fb.payload.channel = some cmd0.user_id
      ∧ (cmd0.channel_id ≠ cmd0.user_id →
          fb.payload.channel ≠ some cmd0.channel_id)
      ∧ ∃ pre : String,
          fb.payload.text = some (pre ++ ("<#" ++ cmd0.channel_id ++ ">")) :=
  catch_slack_error_fallback_target failingHandler cmd0 env0 [] rfl

/-- Claim C5: when the moderation-service response has status `>= 400` or
its JSON body is an empty list, `slash_here` performs no chat-API call at
all and returns normally. -/
theorem slash_here_denied (command : Command) (env : Env)
    (h : 400 ≤ env.modStatus ∨ env.modBody = []) :
    slash_here command env = ([], none) := by
  apply catch_slack_error_ok
  unfold slash_here_core
  by_cases hs : 400 ≤ env.modStatus
  · rw [if_pos hs]
  · rw [if_neg hs]
    rcases h with h | h
    · exact absurd h hs
    · rw [h]
      simp

/-- Witness for C5 on an error status and on an empty authorization list. -/
theorem slash_here_denied_witness :
    slash_here cmd0 { env0 with modStatus := 503 } = ([], none)
    ∧ slash_here cmd0 { env0 with modBody := [] } = ([], none) :=
  ⟨slash_here_denied cmd0 { env0 with modStatus := 503 } (Or.inl (by decide)),
   slash_here_denied cmd0 { env0 with modBody := [] } (Or.inr rfl)⟩

/-- Claim C6: when the moderation service returns a success status and a
non-empty authorization list, `slash_here` posts exactly two channel
messages in sequence, and the second carries `thread_ts` equal to the `ts`
the chat API returned for the first message (`Env.postMessageTs`). -/
theorem slash_here_authorized (command : Command) (env : Env)
    (h1 : env.modStatus < 400) (h2 : env.modBody ≠ []) :
    slash_here command env =
      ([⟨Method.chatPostMessage,
        { channel := some command.channel_id
          text := some (env.get_slash_here_messages command.user_id
            command.channel_id command.text).1 }⟩,
        ⟨Method.chatPostMessage,
        { channel := some command.channel_id
          text := some (env.get_slash_here_messages command.user_id
            command.channel_id command.text).2
          threadTs := some env.postMessageTs }⟩], none) := by
  apply catch_slack_error_ok
  unfold slash_here_core
  rw [if_neg (by omega), if_neg (by simpa using h2)]

/-- Witness for C6 on a success status and a one-entry list. -/
theorem slash_here_authorized_witness :
    slash_here cmd0 env0 =
      ([⟨Method.chatPostMessage,
        { channel := some cmd0.channel_id
          text := some (env0.get_slash_here_messages cmd0.user_id
            cmd0.channel_id cmd0.text).1 }⟩,
        ⟨Method.chatPostMessage,
        { channel := some cmd0.channel_id
          text := some (env0.get_slash_here_messages cmd0.user_id
            cmd0.channel_id cmd0.text).2
          threadTs := some env0.postMessageTs }⟩], none) :=
  slash_here_authorized cmd0 env0 (by decide) (by decide)

/-- Claim C7: on a non-success restaurant-search HTTP status,
`r.raise_for_status()` raises `ClientResponseError`, which escapes both
`slash_lunch`'s body and the `catch_slack_error` wrapper (it is not a
`SlackAPIError`): no lunch message and no fallback message is issued. -/
theorem slash_lunch_propagates (command : Command) (env : Env)
    (h : 400 ≤ env.lunchStatus) :
    slash_lunch_core command env = ([], some PyError.clientResponseError)
    ∧ slash_lunch command env = ([], some PyError.clientResponseError) := by
  have hcore : slash_lunch_core command env
      = ([], some PyError.clientResponseError) := by
    unfold slash_lunch_core
    rw [if_pos h]
  refine ⟨hcore, ?_⟩
  exact catch_slack_error_pass slash_lunch_core command env []
    PyError.clientResponseError (by decide) hcore

/-- Witness for C7 at a concrete 500 response. -/
theorem slash_lunch_propagates_witness :
    slash_lunch_core cmd0 { env0 with lunchStatus := 500 }
      = ([], some PyError.clientResponseError)
    ∧ slash_lunch cmd0 { env0 with lunchStatus := 500 }
      = ([], some PyError.clientResponseError) :=
  slash_lunch_propagates cmd0 { env0 with lunchStatus := 500 } (by decide)

/-- Claim C8: every handler in the command registry (`/here`, `/lunch`,
`/repeat`, `/report`, `/ticket`, `/roll`) is the `catch_slack_error`
wrapping of its body. -/
theorem create_endpoints_all_wrapped :
    create_endpoints =
      [("/here", catch_slack_error slash_here_core),
       ("/lunch", catch_slack_error slash_lunch_core),
       ("/repeat", catch_slack_error slash_repeat_core),
       ("/report", catch_slack_error slash_report_core),
       ("/ticket", catch_slack_error slash_ticket_core),
       ("/roll", catch_slack_error slash_roll_core)] := rfl
